import Mathlib

/-!
Shallow embedding of `src/lib/timeseries.py` (module `timeseries`): the
hash-routed, month-fragmented time-series store.  Pure functions of the
source become Lean functions; the SQLite database underneath a
`Fragment_Group` becomes an explicit `DBState` value threaded through the
operations.  Numeric element values are modelled as
exact integers (every concrete value the claims mention is integral);
the vector arithmetic the claims rely on (sums, element updates) is exact,
abstracting from float32 rounding, which is outside the embedding.

The repository modules `db`, `hash_` and `time_` are not part of the
source tree; where an operation delegates to them, the corresponding Lean
definition carries a doc comment starting `Modelled from the spec:` and is
written to the spec's description (and the repository's own doctests).
-/

set_option autoImplicit false
set_option maxRecDepth 2000

namespace Timeseries

/-- Storage schema version (`SCHEMA_VERSION = 1`). -/
def SCHEMA_VERSION : Nat := 1

/-- Compression threshold (`FRAGMENT_TOTAL_ZMAX = 2`). -/
def FRAGMENT_TOTAL_ZMAX : Nat := 2

/-- Name of the hash algorithm used for routing (`HASH = 'fnv1a_32'`). -/
def HASH : String := "fnv1a_32"

/-- Modelled from the spec: the repository's `hash_` module is not under
`src/`; the spec treats the hash as "a pure function string → unsigned
32-bit integer", "fixed, versioned, non-cryptographic", named `fnv1a_32`
in the code.  This is the standard 32-bit FNV-1a hash over a byte list:
start from the offset basis 2166136261 and, for each byte, XOR it in and
multiply by the prime 16777619, reducing modulo 2^32. -/
def fnv1a_32_bytes (bs : List Nat) : Nat :=
  bs.foldl (fun h b => ((h ^^^ b % 256) * 16777619) % 2 ^ 32) 2166136261

/-- Modelled from the spec: `fnv1a_32` on a string hashes its encoded
bytes; for the ASCII identifiers used throughout, the byte values are the
character code points. -/
def fnv1a_32 (s : String) : Nat :=
  fnv1a_32_bytes (s.data.map Char.toNat)

/-- `Dataset(filename, hashmod)`: a storage root plus a shard count. -/
structure Dataset where
  filename : String
  hashmod : Nat
deriving Repr, DecidableEq

/-- `Dataset.shard`: `hashf(namespace + '/' + name) % self.hashmod`
(timeseries.py line 108).  `nspace` stands for the Python parameter
`namespace`, which is a reserved word in Lean. -/
def Dataset.shard (d : Dataset) (nspace name : String) : Nat :=
  fnv1a_32 (nspace ++ "/" ++ name) % d.hashmod

/-- C1: for every namespace string, name string and `hashmod > 0`, the
dataset's shard operation returns `hash(namespace + "/" + name) mod
hashmod`, it is deterministic (any dataset with the same `hashmod` routes
the pair identically), and the result lies in `[0, hashmod)`. -/
theorem C1_shard_spec (d : Dataset) (nspace name : String)
    (hpos : 0 < d.hashmod) :
    d.shard nspace name = fnv1a_32 (nspace ++ "/" ++ name) % d.hashmod ∧
    d.shard nspace name < d.hashmod ∧
    ∀ d2 : Dataset, d2.hashmod = d.hashmod →
      d2.shard nspace name = d.shard nspace name := by
  refine ⟨rfl, Nat.mod_lt _ hpos, ?_⟩
  intro d2 h2
  simp [Dataset.shard, h2]

/-- Witness for C1 at a concrete dataset and identity. -/
theorem C1_shard_spec_witness :
    (0 : Nat) < (Dataset.mk "R" 4).hashmod ∧
    ((Dataset.mk "R" 4).shard "aboth" "abov11"
        = fnv1a_32 ("aboth" ++ "/" ++ "abov11") % 4 ∧
      (Dataset.mk "R" 4).shard "aboth" "abov11" < 4 ∧
      ∀ d2 : Dataset, d2.hashmod = (Dataset.mk "R" 4).hashmod →
        d2.shard "aboth" "abov11" = (Dataset.mk "R" 4).shard "aboth" "abov11") :=
  ⟨by decide, C1_shard_spec (Dataset.mk "R" 4) "aboth" "abov11" (by decide)⟩

/-- A Python `datetime.datetime` value as passed to `Dataset.open_month`:
calendar fields plus whether its timezone is UTC.  (The source also
accepts `datetime.date`, which has no sub-day attributes; the doctests
exercise `datetime.datetime`, which always has them, and that is the case
modelled here.) -/
structure MonthStamp where
  year : Nat
  month : Nat
  day : Nat
  hour : Nat
  minute : Nat
  second : Nat
  microsecond : Nat
  tzIsUTC : Bool
deriving Repr, DecidableEq

/-- Modelled from the spec: `time_.hours_in_month` lives in the missing
`time_` module; the spec describes "a calendar utility mapping a month to
an ISO date tag and an hours-in-month count" and the doctests give January
2015 the count 744.  Days per month by the Gregorian rule, times 24. -/
def days_in_month (year month : Nat) : Nat :=
  if month = 2 then
    if year % 4 = 0 ∧ (year % 100 ≠ 0 ∨ year % 400 = 0) then 29 else 28
  else if month = 4 ∨ month = 6 ∨ month = 9 ∨ month = 11 then 30
  else 31

/-- Modelled from the spec: hours in a calendar month. -/
def hours_in_month (m : MonthStamp) : Nat :=
  24 * days_in_month m.year m.month

/-- Two-digit zero padding for date fields. -/
def pad2 (n : Nat) : String :=
  if n < 10 then "0" ++ toString n else toString n

/-- Errors surfaced by `Dataset.open_month` and `Fragment_Group.open`.
The first three are the validation errors of the claims; the `db`-side
errors come from metadata validation on open. -/
inductive Open_Error where
  /-- `ValueError('month must have day=1, not %d')` -/
  | dayNotOne (d : Nat)
  /-- `ValueError('month must have all sub-day attributes equal to zero')` -/
  | subDayNonzero
  /-- `ValueError('time zone must be UTC')`, raised inside
  `time_.iso8601_date` (doctest, timeseries.py line 323) -/
  | tzNotUTC
  /-- `ValueError('Metadata mismatch at key %s: expected %s, found %s')` -/
  | mismatch (key expected found : String)
  /-- Python `KeyError` escaping from `db_meta[k]` in `validate_db` -/
  | keyErr (key : String)
  /-- `ValueError('Metadata mismatch: key sets differ')` -/
  | keySetsDiffer
  /-- store error for a read-only open of an absent database -/
  | noMetadataTable
deriving Repr, DecidableEq

/-- The configuration-mismatch errors: the two `ValueError`s raised by
`Fragment_Group.validate_db` itself. -/
def Open_Error.isMismatch : Open_Error → Bool
  | .mismatch _ _ _ => true
  | .keySetsDiffer => true
  | _ => false

/-- The bucket-addressing validation errors of the error taxonomy. -/
def Open_Error.isValidation : Open_Error → Bool
  | .dayNotOne _ => true
  | .subDayNonzero => true
  | .tzNotUTC => true
  | _ => false

/-- Modelled from the spec: `time_.iso8601_date` of the missing `time_`
module returns the ISO-8601 date tag of the month and, per the
repository's own doctest, raises `ValueError('time zone must be UTC')`
for a non-UTC timezone. -/
def iso8601_date (m : MonthStamp) : Except Open_Error String :=
  if m.tzIsUTC then
    .ok (toString m.year ++ "-" ++ pad2 m.month ++ "-" ++ pad2 m.day)
  else
    .error .tzNotUTC

/-- `Fragment_Source`: where did a fragment come from? -/
inductive Fragment_Source where
  | NEW
  | UNCOMPRESSED
  | COMPRESSED
deriving Repr, DecidableEq

/-- The pure fields of a `Fragment_Group` (the `db`/`curs`/`writeable`
slots are the store handle, modelled separately as `DBState`). -/
structure Fragment_Group where
  dataset : Dataset
  filename : String
  tag : String
  length : Nat
deriving Repr, DecidableEq

/-- The expected metadata record built in `Fragment_Group.__init__`, in
its insertion order; values are the strings SQLite's TEXT column stores
and `str(v)` produces. -/
def Fragment_Group.metadata (g : Fragment_Group) : List (String × String) :=
  [("fragment_total_zmax", toString FRAGMENT_TOTAL_ZMAX),
   ("hash", HASH),
   ("hashmod", toString g.dataset.hashmod),
   ("length", toString g.length),
   ("schema_version", toString SCHEMA_VERSION)]

/-- One row of a shard table `data%d`:
`(namespace, name, dtype, total, data)`; the BLOB column is modelled as
the decoded element list. -/
structure Row where
  nspace : String
  name : String
  dtype : String
  total : Int
  data : List Int
deriving Repr, DecidableEq

/-- A shard table is a sequence of rows in insertion order; the schema
created by `initialize_db` declares no key or uniqueness constraint. -/
abbrev Table := List Row

/-- The SQLite database file behind one fragment group: the `metadata`
table (absent before initialization) and the `data0..data(hashmod-1)`
shard tables. -/
structure DBState where
  metaTable : Option (List (String × String))
  dataTables : List Table
deriving Repr, DecidableEq

/-- Lookup in the stored metadata, as `dict(...)[k]`: the value of the
first pair with the given key (the `metadata` table has a primary key, so
keys are unique). -/
def metaLookup (stored : List (String × String)) (k : String) : Option String :=
  (stored.find? (fun p => p.1 = k)).map (fun p => p.2)

/-- `initialize_db` (timeseries.py lines 182-205): skip when not
writeable or when the metadata table already exists; otherwise create the
metadata table, insert the expected metadata items, and create `hashmod`
shard tables, all initially empty.  No constraint on `(namespace, name)`
is declared. -/
def Fragment_Group.initialize_db (g : Fragment_Group) (writeable : Bool)
    (st : DBState) : DBState :=
  if writeable then
    match st.metaTable with
    | some _ => st
    | none =>
        { metaTable := some g.metadata,
          dataTables := List.replicate g.dataset.hashmod [] }
  else st

/-- The per-key loop of `validate_db`: for each expected `(k, v)` in
order, evaluate `db_meta[k]` (Python `KeyError` when absent) and compare
with `str(v)`. -/
def validate_items (expected stored : List (String × String)) :
    Except Open_Error Unit :=
  match expected with
  | [] => .ok ()
  | (k, v) :: rest =>
      match metaLookup stored k with
      | none => .error (.keyErr k)
      | some w =>
          if v = w then validate_items rest stored
          else .error (.mismatch k v w)

/-- Python `set(a) == set(b)` on key lists. -/
def keySetEq (a b : List String) : Bool :=
  a.all (fun k => b.contains k) && b.all (fun k => a.contains k)

/-- `validate_db` (timeseries.py lines 218-226): compare each expected
item against the stored metadata, then require equal key sets. -/
def Fragment_Group.validate_db (g : Fragment_Group)
    (stored : List (String × String)) : Except Open_Error Unit :=
  match validate_items g.metadata stored with
  | .error e => .error e
  | .ok () =>
      if keySetEq (stored.map Prod.fst) (g.metadata.map Prod.fst) then .ok ()
      else .error .keySetsDiffer

/-- `Fragment_Group.open` (timeseries.py lines 207-216): connect and set
pragmas (no logical effect on the modelled state), `initialize_db`, then
`validate_db` against the stored metadata.  Named `open_` because `open`
is reserved in Lean. -/
def Fragment_Group.open_ (g : Fragment_Group) (writeable : Bool)
    (st : DBState) : Except Open_Error DBState :=
  match (g.initialize_db writeable st).metaTable with
  | none => .error .noMetadataTable
  | some stored =>
      match g.validate_db stored with
      | .error e => .error e
      | .ok () => .ok (g.initialize_db writeable st)

/-- `Dataset.open_month` (timeseries.py lines 94-105): validate the month
stamp (day first, then sub-day attributes), derive the tag via
`time_.iso8601_date` (which rejects non-UTC), build the `Fragment_Group`,
and open it against the store. -/
def Dataset.open_month (d : Dataset) (m : MonthStamp) (writeable : Bool)
    (st : DBState) : Except Open_Error (Fragment_Group × DBState) :=
  if m.day ≠ 1 then .error (.dayNotOne m.day)
  else if m.hour ≠ 0 ∨ m.minute ≠ 0 ∨ m.second ≠ 0 ∨ m.microsecond ≠ 0 then
    .error .subDayNonzero
  else
    match iso8601_date m with
    | .error e => .error e
    | .ok tag =>
        let g : Fragment_Group :=
          { dataset := d,
            filename := d.filename ++ "/" ++ tag ++ ".db",
            tag := tag,
            length := hours_in_month m }
        match g.open_ writeable st with
        | .error e => .error e
        | .ok st2 => .ok (g, st2)

/-- `Fragment`: one series' data for one time bucket.  `dtype` models the
element type tag of the underlying numpy array (`data.dtype.char`);
element values themselves are modelled as exact rationals. -/
structure Fragment where
  group : Fragment_Group
  nspace : String
  name : String
  dtype : String
  data : List Int
  source : Fragment_Source
  total : Int
deriving Repr, DecidableEq

/-- Default data type tag: `TYPE_DEFAULT = np.float32`, whose numpy dtype
char is `f`. -/
def TYPE_DEFAULT : String := "f"

/-- `Fragment_Group.create` (timeseries.py lines 155-158): a fragment of
`group.length` zeros with source `NEW`; `Fragment.__init__` sets
`total = 0.0`.  It takes no store state: no I/O. -/
def Fragment_Group.create (g : Fragment_Group) (nspace name dtype : String) :
    Fragment :=
  { group := g, nspace := nspace, name := name, dtype := dtype,
    data := List.replicate g.length 0, source := .NEW, total := 0 }

/-- `Fragment.shard` (timeseries.py lines 250-252). -/
def Fragment.shard (f : Fragment) : Nat :=
  f.group.dataset.shard f.nspace f.name

/-- Does a row carry the given identity? (`WHERE namespace=? AND name=?`) -/
def Row.keyIs (r : Row) (nspace name : String) : Bool :=
  r.nspace = nspace && r.name = name

/-- The shard table the hash router selects for an identity. -/
def DBState.tableFor (st : DBState) (g : Fragment_Group)
    (nspace name : String) : Table :=
  st.dataTables.getD (g.dataset.shard nspace name) []

/-- Errors raised by `Fragment_Group.fetch`. -/
inductive Fetch_Error where
  /-- Modelled from the spec: `db.Not_Enough_Rows_Error('no such row')`
  from the missing `db` module's `get_one` when the SELECT matches no
  row. -/
  | not_enough_rows
deriving Repr, DecidableEq

/-- `Fragment_Group.fetch` (timeseries.py lines 163-172): SELECT from the
shard table chosen by the router; not-found error when no row matches;
otherwise decode the payload, build a fragment with source
`UNCOMPRESSED`, and overwrite its total with the stored aggregate.
`db.get_one` is modelled from the spec as returning the first matching
row. -/
def Fragment_Group.fetch (g : Fragment_Group) (st : DBState)
    (nspace name : String) : Except Fetch_Error Fragment :=
  match (st.tableFor g nspace name).find? (fun r => r.keyIs nspace name) with
  | none => .error .not_enough_rows
  | some r =>
      .ok { group := g, nspace := nspace, name := name, dtype := r.dtype,
            data := r.data, source := .UNCOMPRESSED, total := r.total }

/-- `Fragment_Group.fetch_or_create` (timeseries.py lines 174-180):
fetch; on `Not_Enough_Rows_Error`, create.  `dtype` is only used on
create. -/
def Fragment_Group.fetch_or_create (g : Fragment_Group) (st : DBState)
    (nspace name dtype : String) : Fragment :=
  match g.fetch st nspace name with
  | .ok f => f
  | .error .not_enough_rows => g.create nspace name dtype

/-- `Fragment.total_update` (timeseries.py lines 276-280): recompute
`total` as `float(self.data.sum())` — the exact sum of the elements, here
over exact rationals. -/
def Fragment.total_update (f : Fragment) : Fragment :=
  { f with total := f.data.sum }

/-- The row `Fragment.save` writes for a fragment. -/
def Row.ofFragment (f : Fragment) : Row :=
  { nspace := f.nspace, name := f.name, dtype := f.dtype,
    total := f.total, data := f.data }

/-- `Fragment.save` (timeseries.py lines 260-274): `total_update` first,
then one SQL statement against the shard table `data%d` selected by
`self.shard`: INSERT when `source == NEW`, otherwise UPDATE of the rows
matching `(namespace, name)`.  Returns the updated fragment (Python
mutates `self.total` in place) and the new store state. -/
def Fragment.save (f : Fragment) (st : DBState) : Fragment × DBState :=
  let f2 := f.total_update
  let sh := f2.shard
  let t := st.dataTables.getD sh []
  let t2 :=
    if f2.source = .NEW then
      t ++ [Row.ofFragment f2]
    else
      t.map (fun r =>
        if r.keyIs f2.nspace f2.name then
          { r with dtype := f2.dtype, total := f2.total, data := f2.data }
        else r)
  (f2, { st with dataTables := st.dataTables.set sh t2 })

/-- In-place element mutation `f.data[i] = v` (the doctests' only
mutation of a fragment); out-of-range indices leave the vector
unchanged. -/
def Fragment.setData (f : Fragment) (i : Nat) (v : Int) : Fragment :=
  { f with data := f.data.set i v }

/-- Modelled from the spec: `begin`/`commit` delegate to the missing `db`
module's transaction control; in this single-connection logical model the
committed state is the state itself. -/
def Fragment_Group.commit (st : DBState) : DBState := st

/-- Does an open-month result carry a bucket-addressing validation
error? -/
def validationFailed (r : Except Open_Error (Fragment_Group × DBState)) :
    Bool :=
  match r with
  | .error e => e.isValidation
  | .ok _ => false

/-- Concrete dataset of the spec's scenario: root `R`, `hashmod = 4`. -/
def dR : Dataset := { filename := "R", hashmod := 4 }

/-- January 2015 as a UTC month stamp. -/
def janUTC : MonthStamp :=
  { year := 2015, month := 1, day := 1, hour := 0, minute := 0, second := 0,
    microsecond := 0, tzIsUTC := true }

/-- The fragment group for January 2015 under `dR` (744 elements). -/
def gJan : Fragment_Group :=
  { dataset := dR, filename := "R/2015-01-01.db", tag := "2015-01-01",
    length := hours_in_month janUTC }

/-- A store with no database file yet. -/
def stEmpty : DBState := { metaTable := none, dataTables := [] }

/-- The January 2015 store right after writeable initialization. -/
def stJan : DBState := gJan.initialize_db true stEmpty

/-- Every error produced by the per-key metadata loop is a value
mismatch or a key error. -/
theorem validate_items_error_kinds (expected stored : List (String × String))
    (e : Open_Error) (h : validate_items expected stored = .error e) :
    (∃ k v fnd, e = .mismatch k v fnd) ∨ ∃ k, e = .keyErr k := by
  induction expected with
  | nil => simp [validate_items] at h
  | cons p rest ih =>
    obtain ⟨k, v⟩ := p
    simp only [validate_items] at h
    cases hl : metaLookup stored k with
    | none =>
      simp only [hl] at h
      right
      exact ⟨k, by injection h with h2; exact h2.symm⟩
    | some fnd =>
      simp only [hl] at h
      by_cases hv : v = fnd
      · rw [if_pos hv] at h
        exact ih h
      · rw [if_neg hv] at h
        left
        exact ⟨k, v, fnd, by injection h with h2; exact h2.symm⟩

/-- A mismatch error from the per-key loop reports a genuinely differing
value at an expected key that is present in the stored metadata. -/
theorem validate_items_mismatch (expected stored : List (String × String))
    (k v fnd : String)
    (h : validate_items expected stored = .error (.mismatch k v fnd)) :
    (k, v) ∈ expected ∧ metaLookup stored k = some fnd ∧ v ≠ fnd := by
  induction expected with
  | nil => simp [validate_items] at h
  | cons p rest ih =>
    obtain ⟨k2, v2⟩ := p
    simp only [validate_items] at h
    cases hl : metaLookup stored k2 with
    | none =>
      simp only [hl] at h
      injection h with h2
      cases h2
    | some fnd2 =>
      simp only [hl] at h
      by_cases hv : v2 = fnd2
      · rw [if_pos hv] at h
        have := ih h
        exact ⟨List.mem_cons_of_mem _ this.1, this.2⟩
      · rw [if_neg hv] at h
        injection h with h2
        injection h2 with hk hv2 hf
        subst hk
        subst hv2
        subst hf
        exact ⟨List.mem_cons_self _ _, hl, hv⟩

/-- A key error from the per-key loop reports an expected key that is
absent from the stored metadata. -/
theorem validate_items_keyErr (expected stored : List (String × String))
    (k : String) (h : validate_items expected stored = .error (.keyErr k)) :
    k ∈ expected.map Prod.fst ∧ metaLookup stored k = none := by
  induction expected with
  | nil => simp [validate_items] at h
  | cons p rest ih =>
    obtain ⟨k2, v2⟩ := p
    simp only [validate_items] at h
    cases hl : metaLookup stored k2 with
    | none =>
      simp only [hl] at h
      injection h with h2
      injection h2 with hk
      subst hk
      exact ⟨by simp, hl⟩
    | some fnd2 =>
      simp only [hl] at h
      by_cases hv : v2 = fnd2
      · rw [if_pos hv] at h
        have := ih h
        refine ⟨?_, this.2⟩
        simp only [List.map_cons]
        exact List.mem_cons_of_mem _ this.1
      · rw [if_neg hv] at h
        injection h with h2
        cases h2

/-- The per-key loop succeeds exactly when every expected pair is found
with its expected value. -/
theorem validate_items_ok_iff (expected stored : List (String × String)) :
    validate_items expected stored = .ok () ↔
    ∀ p ∈ expected, metaLookup stored p.1 = some p.2 := by
  induction expected with
  | nil => simp [validate_items]
  | cons p rest ih =>
    obtain ⟨k, v⟩ := p
    simp only [validate_items]
    cases hl : metaLookup stored k with
    | none =>
      simp only [hl]
      constructor
      · intro h
        exact Except.noConfusion h
      · intro h
        exfalso
        have := h (k, v) (List.mem_cons_self _ _)
        rw [hl] at this
        cases this
    | some fnd =>
      simp only [hl]
      by_cases hv : v = fnd
      · subst hv
        rw [if_pos rfl, ih, List.forall_mem_cons]
        simp [hl]
      · rw [if_neg hv]
        constructor
        · intro h
          exact Except.noConfusion h
        · intro h
          exfalso
          have := h (k, v) (List.mem_cons_self _ _)
          rw [hl] at this
          injection this with h2
          exact hv h2.symm

/-- No error surfaced by `validate_db` is a bucket-addressing validation
error. -/
theorem validate_db_error_not_validation (g : Fragment_Group)
    (stored : List (String × String)) (e : Open_Error)
    (h : g.validate_db stored = .error e) : e.isValidation = false := by
  unfold Fragment_Group.validate_db at h
  cases hvi : validate_items g.metadata stored with
  | error e2 =>
    simp only [hvi] at h
    injection h with h2
    subst h2
    rcases validate_items_error_kinds _ _ _ hvi with ⟨k, v, fnd, rfl⟩ | ⟨k, rfl⟩ <;> rfl
  | ok u =>
    cases u
    simp only [hvi] at h
    by_cases hks : keySetEq (stored.map Prod.fst) (g.metadata.map Prod.fst) = true
    · rw [if_pos hks] at h
      exact Except.noConfusion h
    · rw [if_neg hks] at h
      injection h with h2
      subst h2
      rfl

/-- No error surfaced by `Fragment_Group.open` is a bucket-addressing
validation error: the month-stamp checks all happen earlier, in
`open_month`, before the store is touched. -/
theorem open_error_not_validation (g : Fragment_Group) (w : Bool)
    (st : DBState) (e : Open_Error) (h : g.open_ w st = .error e) :
    e.isValidation = false := by
  unfold Fragment_Group.open_ at h
  cases hmt : (g.initialize_db w st).metaTable with
  | none =>
    simp only [hmt] at h
    injection h with h2
    subst h2
    rfl
  | some stored =>
    simp only [hmt] at h
    cases hv : g.validate_db stored with
    | error e2 =>
      simp only [hv] at h
      injection h with h2
      subst h2
      exact validate_db_error_not_validation _ _ _ hv
    | ok u =>
      cases u
      simp only [hv] at h
      exact Except.noConfusion h

/-- C2: each malformed component of the month argument to `open_month`
produces its own distinct validation error — wrong day first, then
non-zero sub-day attributes, then a non-UTC timezone — and the error is
raised before any I/O: the result is the same for every store state `st`,
which is never consulted.  A month with day 1, zero sub-day components
and UTC passes the validation (any later failure is a store-side error,
never a validation error). -/
theorem C2_open_month_validation (d : Dataset) (m : MonthStamp) (w : Bool)
    (st : DBState) :
    (m.day ≠ 1 → d.open_month m w st = .error (.dayNotOne m.day)) ∧
    (m.day = 1 →
      (m.hour ≠ 0 ∨ m.minute ≠ 0 ∨ m.second ≠ 0 ∨ m.microsecond ≠ 0) →
      d.open_month m w st = .error .subDayNonzero) ∧
    (m.day = 1 → m.hour = 0 → m.minute = 0 → m.second = 0 →
      m.microsecond = 0 → m.tzIsUTC = false →
      d.open_month m w st = .error .tzNotUTC) ∧
    (m.day = 1 → m.hour = 0 → m.minute = 0 → m.second = 0 →
      m.microsecond = 0 → m.tzIsUTC = true →
      validationFailed (d.open_month m w st) = false) ∧
    ((Open_Error.dayNotOne m.day).isValidation = true ∧
      Open_Error.subDayNonzero.isValidation = true ∧
      Open_Error.tzNotUTC.isValidation = true ∧
      Open_Error.dayNotOne m.day ≠ .subDayNonzero ∧
      Open_Error.dayNotOne m.day ≠ .tzNotUTC ∧
      (Open_Error.subDayNonzero : Open_Error) ≠ .tzNotUTC) := by
  refine ⟨?_, ?_, ?_, ?_, rfl, rfl, rfl, by simp, by simp, by simp⟩
  · intro hday
    simp [Dataset.open_month, hday]
  · intro hday hsub
    unfold Dataset.open_month
    rw [if_neg (by simp [hday]), if_pos hsub]
  · intro h1 h2 h3 h4 h5 htz
    unfold Dataset.open_month
    rw [if_neg (by simp [h1]), if_neg (by simp [h2, h3, h4, h5])]
    simp [iso8601_date, htz]
  · intro h1 h2 h3 h4 h5 htz
    unfold Dataset.open_month
    rw [if_neg (by simp [h1]), if_neg (by simp [h2, h3, h4, h5])]
    simp only [iso8601_date, htz, if_pos]
    cases hopen : Fragment_Group.open_
        { dataset := d,
          filename := d.filename ++ "/"
            ++ (toString m.year ++ "-" ++ pad2 m.month ++ "-" ++ pad2 m.day)
            ++ ".db",
          tag := toString m.year ++ "-" ++ pad2 m.month ++ "-" ++ pad2 m.day,
          length := hours_in_month m } w st with
    | error e =>
      exact open_error_not_validation _ _ _ _ hopen
    | ok st2 =>
      rfl

/-- Witness for C2: concrete months exercising each validation branch
against the empty store (day 2 of January 2015; 1 second past midnight;
the GMT-tagged first of January; and the valid UTC first of January). -/
theorem C2_open_month_validation_witness :
    ((MonthStamp.mk 2015 1 2 0 0 0 0 true).day ≠ 1 ∧
      dR.open_month (MonthStamp.mk 2015 1 2 0 0 0 0 true) true stEmpty
        = .error (.dayNotOne 2)) ∧
    (dR.open_month (MonthStamp.mk 2015 1 1 0 0 1 0 true) true stEmpty
        = .error .subDayNonzero) ∧
    (dR.open_month (MonthStamp.mk 2015 1 1 0 0 0 0 false) true stEmpty
        = .error .tzNotUTC) ∧
    validationFailed (dR.open_month janUTC true stEmpty) = false :=
  ⟨⟨by decide,
    (C2_open_month_validation dR (MonthStamp.mk 2015 1 2 0 0 0 0 true) true
      stEmpty).1 (by decide)⟩,
    (C2_open_month_validation dR (MonthStamp.mk 2015 1 1 0 0 1 0 true) true
      stEmpty).2.1 rfl (by simp),
    (C2_open_month_validation dR (MonthStamp.mk 2015 1 1 0 0 0 0 false) true
      stEmpty).2.2.1 rfl rfl rfl rfl rfl rfl,
    (C2_open_month_validation dR janUTC true stEmpty).2.2.2.1
      rfl rfl rfl rfl rfl rfl⟩

/-- C4: `create` is pure (it takes no store state at all: no I/O, always
succeeds) and returns a fragment of exactly `group.length` zero elements,
source `NEW`, carrying the given namespace and name. -/
theorem C4_create_zero_fragment (g : Fragment_Group)
    (nspace name dtype : String) :
    (g.create nspace name dtype).data = List.replicate g.length 0 ∧
    (g.create nspace name dtype).data.length = g.length ∧
    (g.create nspace name dtype).data.all (fun x => decide (x = 0)) = true ∧
    (g.create nspace name dtype).source = .NEW ∧
    (g.create nspace name dtype).nspace = nspace ∧
    (g.create nspace name dtype).name = name ∧
    (g.create nspace name dtype).total = 0 := by
  refine ⟨rfl, by simp [Fragment_Group.create], ?_, rfl, rfl, rfl, rfl⟩
  rw [List.all_eq_true]
  intro x hx
  have : x = 0 := List.eq_of_mem_replicate (by simpa [Fragment_Group.create] using hx)
  simp [this]

/-- `getD` after `set` at a different index is unchanged. -/
theorem getD_set_of_ne {α : Type} (l : List α) (i j : Nat) (a dflt : α)
    (h : i ≠ j) : (l.set i a).getD j dflt = l.getD j dflt := by
  simp [List.getD_eq_getElem?_getD, List.getElem?_set_ne h]

/-- `getD` after `set` at the same, in-range index yields the new
element. -/
theorem getD_set_self {α : Type} (l : List α) (i : Nat) (a dflt : α)
    (h : i < l.length) : (l.set i a).getD i dflt = a := by
  simp [List.getD_eq_getElem?_getD, List.getElem?_set_self h]

/-- `getD` on a replicated list yields the replicated element in
range. -/
theorem getD_replicate_of_lt {α : Type} (n i : Nat) (a dflt : α)
    (h : i < n) : (List.replicate n a).getD i dflt = a := by
  simp [List.getD_eq_getElem?_getD, List.getElem?_replicate, h]

/-- Setting one in-range element changes an exact integer sum by the
difference between the new and the old element. -/
theorem sum_set_int (l : List Int) (i : Nat) (v : Int)
    (h : i < l.length) :
    (l.set i v).sum = l.sum - l.getD i 0 + v := by
  induction l generalizing i with
  | nil => simp at h
  | cons a t ih =>
    cases i with
    | zero =>
      simp only [List.set, List.sum_cons, List.getD_cons_zero]
      ring
    | succ n =>
      have hn : n < t.length := by simpa using h
      simp only [List.set, List.sum_cons, List.getD_cons_succ]
      rw [ih n hn]
      ring

/-- A replicated-zero integer list sums to zero. -/
theorem sum_replicate_zero (n : Nat) :
    (List.replicate n (0 : Int)).sum = 0 := by
  simp [List.sum_replicate]

/-- Decidable equality for store results (component-wise). -/
instance exceptDecidableEq {ε α : Type} [DecidableEq ε] [DecidableEq α] :
    DecidableEq (Except ε α) := fun x y =>
  match x, y with
  | .ok a, .ok b =>
      if h : a = b then .isTrue (by rw [h])
      else .isFalse (fun hc => h (Except.ok.inj hc))
  | .error a, .error b =>
      if h : a = b then .isTrue (by rw [h])
      else .isFalse (fun hc => h (Except.error.inj hc))
  | .ok _, .error _ => .isFalse (fun hc => Except.noConfusion hc)
  | .error _, .ok _ => .isFalse (fun hc => Except.noConfusion hc)

/-- The shard table contents after a `save`: the old table plus one
appended row (insert, `NEW`), or the old table with every row matching
the identity overwritten (update). -/
def savedTable (f : Fragment) (st : DBState) : Table :=
  if f.source = .NEW then
    st.dataTables.getD f.shard [] ++ [Row.ofFragment f.total_update]
  else
    (st.dataTables.getD f.shard []).map (fun r =>
      if r.keyIs f.nspace f.name then
        { r with dtype := f.dtype, total := f.data.sum, data := f.data }
      else r)

/-- Unfolded form of `Fragment.save`: recompute the total, then replace
the shard table selected by the router with `savedTable`. -/
theorem save_eq (f : Fragment) (st : DBState) :
    f.save st =
      (f.total_update,
        { st with
            dataTables := st.dataTables.set f.shard (savedTable f st) }) :=
  rfl

/-- `savedTable` in the insert case. -/
theorem savedTable_new (f : Fragment) (st : DBState)
    (h : f.source = .NEW) :
    savedTable f st =
      st.dataTables.getD f.shard [] ++ [Row.ofFragment f.total_update] := by
  unfold savedTable
  rw [if_pos h]

/-- `savedTable` in the update case. -/
theorem savedTable_old (f : Fragment) (st : DBState)
    (h : ¬ f.source = .NEW) :
    savedTable f st =
      (st.dataTables.getD f.shard []).map (fun r =>
        if r.keyIs f.nspace f.name then
          { r with dtype := f.dtype, total := f.data.sum, data := f.data }
        else r) := by
  unfold savedTable
  rw [if_neg h]

/-- The all-zero series of the not-found/zero-series distinction. -/
def fragZ : Fragment := gJan.create "aboth" "zeros" TYPE_DEFAULT

/-- January 2015 store holding one stored all-zero series. -/
def stZ : DBState := (fragZ.save stJan).2

/-- The fragment `fetch` returns for the stored all-zero series (its
total is written as the stored aggregate, the sum of the zero vector,
which `frZ_total_zero` below evaluates to 0). -/
def frZ : Fragment :=
  { group := gJan, nspace := "aboth", name := "zeros", dtype := TYPE_DEFAULT,
    data := List.replicate gJan.length 0, source := .UNCOMPRESSED,
    total := (List.replicate gJan.length (0 : Int)).sum }

/-- The stored aggregate of the all-zero series is 0. -/
theorem frZ_total_zero : frZ.total = 0 := sum_replicate_zero _

/-- The scenario fragment: January 2015, `("aboth", "abov11")`, index 0
set to 11 and index 2 set to 22. -/
def fragA : Fragment :=
  ((gJan.create "aboth" "abov11" TYPE_DEFAULT).setData 0 11).setData 2 22

/-- The scenario fragment's vector: 744 zeros with index 0 set to 11 and
index 2 set to 22. -/
theorem fragA_data :
    fragA.data = ((List.replicate 744 (0 : Int)).set 0 11).set 2 22 := rfl

/-- The scenario fragment's vector has 744 elements. -/
theorem fragA_len : fragA.data.length = 744 := by
  rw [fragA_data, List.length_set, List.length_set, List.length_replicate]

/-- The scenario fragment's vector sums to 33 exactly. -/
theorem fragA_sum : fragA.data.sum = 33 := by
  rw [fragA_data]
  rw [sum_set_int _ 2 22
    (by rw [List.length_set, List.length_replicate]; norm_num)]
  rw [sum_set_int _ 0 11 (by rw [List.length_replicate]; norm_num)]
  rw [getD_set_of_ne _ _ _ _ _ (by norm_num)]
  rw [getD_replicate_of_lt _ _ _ _ (by norm_num)]
  rw [getD_replicate_of_lt _ _ _ _ (by norm_num)]
  rw [sum_replicate_zero]
  norm_num

/-- C5: `fetch` raises the not-found error exactly when no row with the
identity exists in the shard table the hash router selects (so a stored
all-zero series is found, not not-found); when `fetch` succeeds,
`fetch_or_create` returns the fetched fragment unchanged for every
`dtype` argument, and on not-found it returns `create`'s fragment with
that `dtype`. -/
theorem C5_fetch_not_found_iff (g : Fragment_Group) (st : DBState)
    (nspace name dtype : String) (f : Fragment) :
    (g.fetch st nspace name = .error .not_enough_rows ↔
      (st.tableFor g nspace name).all
        (fun r => !(r.keyIs nspace name)) = true) ∧
    (g.fetch st nspace name = .ok f →
      g.fetch_or_create st nspace name dtype = f) ∧
    (g.fetch st nspace name = .error .not_enough_rows →
      g.fetch_or_create st nspace name dtype = g.create nspace name dtype) := by
  have hiff : (st.tableFor g nspace name).find?
        (fun r => r.keyIs nspace name) = none ↔
      (st.tableFor g nspace name).all
        (fun r => !(r.keyIs nspace name)) = true := by
    rw [List.find?_eq_none, List.all_eq_true]
    constructor
    · intro h x hx
      have := h x hx
      simp only [Bool.not_eq_true] at this
      simp [this]
    · intro h x hx
      have := h x hx
      simp only [Bool.not_eq_true'] at this
      simp [this]
  refine ⟨?_, ?_, ?_⟩
  · unfold Fragment_Group.fetch
    cases hf : (st.tableFor g nspace name).find?
        (fun r => r.keyIs nspace name) with
    | none =>
      simp only [hf]
      constructor
      · intro _
        exact hiff.1 hf
      · intro _
        trivial
    | some r =>
      simp only [hf]
      constructor
      · intro h
        exact Except.noConfusion h
      · intro h
        have := hiff.2 h
        rw [this] at hf
        exact Option.noConfusion hf
  · intro hok
    unfold Fragment_Group.fetch_or_create
    simp only [hok]
  · intro herr
    unfold Fragment_Group.fetch_or_create
    simp only [herr]

/-- Witness for C5: in the January 2015 store holding the saved all-zero
series `("aboth", "zeros")`, fetch finds it (zero series is found, not
not-found) and `fetch_or_create` returns it unchanged even for a
different `dtype`; in the freshly initialized store, fetching
`("aboth", "nonexistent")` is a not-found error and `fetch_or_create`
falls back to `create`. -/
theorem C5_fetch_not_found_iff_witness :
    gJan.fetch stZ "aboth" "zeros" = .ok frZ ∧
    gJan.fetch_or_create stZ "aboth" "zeros" "d" = frZ ∧
    gJan.fetch stJan "aboth" "nonexistent" = .error .not_enough_rows ∧
    gJan.fetch_or_create stJan "aboth" "nonexistent" TYPE_DEFAULT
      = gJan.create "aboth" "nonexistent" TYPE_DEFAULT :=
  have h1 : gJan.fetch stZ "aboth" "zeros" = .ok frZ := rfl
  have h2 : gJan.fetch stJan "aboth" "nonexistent"
      = .error .not_enough_rows := rfl
  ⟨h1, (C5_fetch_not_found_iff gJan stZ "aboth" "zeros" "d" frZ).2.1 h1,
    h2, (C5_fetch_not_found_iff gJan stJan "aboth" "nonexistent"
      TYPE_DEFAULT frZ).2.2 h2⟩

/-- C6: `save` first recomputes the total as the exact sum of the current
data, then writes exactly one row in the shard table the hash router
selects for the fragment's identity: one appended row (insert) when the
source is `NEW`, otherwise an in-place update of the rows keyed by
`(namespace, name)` in that same table (table length unchanged); every
other shard table, and the metadata table, are untouched, and the written
row carries the fragment's identity and the recomputed total. -/
theorem C6_save_writes_one_row (f : Fragment) (st : DBState) (j : Nat)
    (hlen : f.shard < st.dataTables.length) :
    ((f.save st).1.total = f.data.sum) ∧
    (f.source = .NEW →
      (f.save st).2.dataTables.getD f.shard [] =
        st.dataTables.getD f.shard [] ++ [Row.ofFragment (f.save st).1] ∧
      ((f.save st).2.dataTables.getD f.shard []).length =
        (st.dataTables.getD f.shard []).length + 1) ∧
    (¬ f.source = .NEW →
      (f.save st).2.dataTables.getD f.shard [] =
        (st.dataTables.getD f.shard []).map (fun r =>
          if r.keyIs f.nspace f.name then
            { r with dtype := f.dtype, total := f.data.sum, data := f.data }
          else r) ∧
      ((f.save st).2.dataTables.getD f.shard []).length =
        (st.dataTables.getD f.shard []).length) ∧
    (j ≠ f.shard →
      (f.save st).2.dataTables.getD j [] = st.dataTables.getD j []) ∧
    ((Row.ofFragment (f.save st).1).nspace = f.nspace ∧
      (Row.ofFragment (f.save st).1).name = f.name ∧
      (Row.ofFragment (f.save st).1).total = f.data.sum) ∧
    (f.save st).2.metaTable = st.metaTable := by
  refine ⟨rfl, ?_, ?_, ?_, ⟨rfl, rfl, rfl⟩, rfl⟩
  · intro hsrc
    rw [save_eq]
    dsimp only
    rw [getD_set_self _ _ _ _ hlen, savedTable_new f st hsrc]
    exact ⟨rfl, by simp⟩
  · intro hsrc
    rw [save_eq]
    dsimp only
    rw [getD_set_self _ _ _ _ hlen, savedTable_old f st hsrc]
    exact ⟨rfl, by simp⟩
  · intro hj
    rw [save_eq]
    dsimp only
    exact getD_set_of_ne _ _ _ _ _ (Ne.symm hj)

/-- Witness for C6: saving the scenario fragment into the initialized
January 2015 store recomputes the total to 33, appends exactly its row to
its shard table, and leaves the adjacent shard table unchanged. -/
theorem C6_save_writes_one_row_witness :
    fragA.shard < stJan.dataTables.length ∧
    (fragA.save stJan).1.total = 33 ∧
    (fragA.save stJan).2.dataTables.getD fragA.shard [] =
      stJan.dataTables.getD fragA.shard []
        ++ [Row.ofFragment (fragA.save stJan).1] ∧
    (fragA.save stJan).2.dataTables.getD (fragA.shard + 1) [] =
      stJan.dataTables.getD (fragA.shard + 1) [] :=
  have hlen : fragA.shard < stJan.dataTables.length := by decide
  have hC := C6_save_writes_one_row fragA stJan (fragA.shard + 1) hlen
  ⟨hlen, hC.1.trans fragA_sum, (hC.2.1 rfl).1,
    hC.2.2.2.1 (Nat.succ_ne_self _)⟩

/-- The fragment the round-trip returns: same identity, same dtype tag,
element-wise the same data, total the exact sum of the data, source
`UNCOMPRESSED`. -/
def roundtripResult (f : Fragment) : Fragment :=
  { group := f.group, nspace := f.nspace, name := f.name, dtype := f.dtype,
    data := f.data, source := .UNCOMPRESSED, total := f.data.sum }

/-- C7: round-trip.  For a `NEW` fragment whose identity has no row yet
in its shard table, save then commit then fetch of the same
`(namespace, name)` returns a fragment whose data is element-wise the
saved data and whose total is the exact sum of the saved elements (source
`UNCOMPRESSED`, same dtype tag). -/
theorem C7_roundtrip (f : Fragment) (st : DBState)
    (hnew : f.source = .NEW)
    (habsent : (st.tableFor f.group f.nspace f.name).all
      (fun r => !(r.keyIs f.nspace f.name)) = true)
    (hlen : f.shard < st.dataTables.length) :
    f.group.fetch (Fragment_Group.commit (f.save st).2) f.nspace f.name =
      .ok (roundtripResult f) := by
  have hfind : (st.tableFor f.group f.nspace f.name).find?
      (fun r => r.keyIs f.nspace f.name) = none := by
    rw [List.find?_eq_none]
    intro x hx
    have := List.all_eq_true.1 habsent x hx
    simp only [Bool.not_eq_true'] at this
    simp [this]
  have htab : ((f.save st).2).tableFor f.group f.nspace f.name =
      st.tableFor f.group f.nspace f.name
        ++ [Row.ofFragment f.total_update] := by
    rw [save_eq]
    show (st.dataTables.set f.shard (savedTable f st)).getD f.shard [] = _
    rw [getD_set_self _ _ _ _ hlen, savedTable_new f st hnew]
    rfl
  have hkey : (Row.ofFragment f.total_update).keyIs f.nspace f.name
      = true := by
    simp [Row.keyIs, Row.ofFragment, Fragment.total_update]
  unfold Fragment_Group.fetch
  simp only [Fragment_Group.commit, htab, List.find?_append, hfind,
    Option.none_or]
  simp only [List.find?, hkey]
  rfl

/-- Witness for C7: the spec scenario.  January 2015 (744 elements),
`hashmod = 4`, fragment `("aboth", "abov11")` with index 0 set to 11 and
index 2 set to 22; after save, commit and fetch, the total is 33 and the
non-zero entries are exactly index 0 (value 11) and index 2 (value 22). -/
theorem C7_roundtrip_witness :
    fragA.source = .NEW ∧
    (stJan.tableFor fragA.group fragA.nspace fragA.name).all
      (fun r => !(r.keyIs fragA.nspace fragA.name)) = true ∧
    fragA.shard < stJan.dataTables.length ∧
    fragA.group.fetch (Fragment_Group.commit (fragA.save stJan).2)
        fragA.nspace fragA.name = .ok (roundtripResult fragA) ∧
    (roundtripResult fragA).total = 33 ∧
    (roundtripResult fragA).data.length = 744 ∧
    (roundtripResult fragA).data =
      ((List.replicate 744 (0 : Int)).set 0 11).set 2 22 ∧
    (roundtripResult fragA).data.getD 0 0 = 11 ∧
    (roundtripResult fragA).data.getD 2 0 = 22 :=
  ⟨rfl, rfl, by decide,
    C7_roundtrip fragA stJan rfl rfl (by decide),
    fragA_sum, fragA_len, fragA_data,
    by rw [show (roundtripResult fragA).data = fragA.data from rfl, fragA_data,
        getD_set_of_ne _ _ _ _ _ (by norm_num),
        getD_set_self _ _ _ _ (by rw [List.length_replicate]; norm_num)],
    by rw [show (roundtripResult fragA).data = fragA.data from rfl, fragA_data,
        getD_set_self _ _ _ _
          (by rw [List.length_set, List.length_replicate]; norm_num)]⟩

/-- Does the stored metadata match the expected configuration exactly:
every expected key present with its expected value, and equal key sets? -/
def metaMatches (g : Fragment_Group)
    (stored : List (String × String)) : Bool :=
  g.metadata.all (fun p => decide (metaLookup stored p.1 = some p.2)) &&
  keySetEq (stored.map Prod.fst) (g.metadata.map Prod.fst)

/-- What each validation-on-open error reports about the stored metadata:
a `mismatch` is a genuinely differing value at an expected key present in
the store, a `keyErr` is an expected key absent from the store, and
`keySetsDiffer` is a key-set difference (with all expected values
matching). -/
def Open_Error.errSound (stored expected : List (String × String)) :
    Open_Error → Prop
  | .mismatch k v fnd =>
      (k, v) ∈ expected ∧ metaLookup stored k = some fnd ∧ v ≠ fnd
  | .keyErr k => k ∈ expected.map Prod.fst ∧ metaLookup stored k = none
  | .keySetsDiffer =>
      keySetEq (stored.map Prod.fst) (expected.map Prod.fst) = false
  | _ => False

/-- `validate_db` succeeds exactly when the stored metadata matches the
expected configuration value-for-value and key-set-for-key-set. -/
theorem validate_db_ok_iff (g : Fragment_Group)
    (stored : List (String × String)) :
    g.validate_db stored = .ok () ↔ metaMatches g stored = true := by
  unfold Fragment_Group.validate_db metaMatches
  cases hvi : validate_items g.metadata stored with
  | error e2 =>
    simp only [hvi]
    constructor
    · intro h
      exact Except.noConfusion h
    · intro h
      exfalso
      rw [Bool.and_eq_true, List.all_eq_true] at h
      have hok : validate_items g.metadata stored = .ok () := by
        rw [validate_items_ok_iff]
        intro p hp
        exact of_decide_eq_true (h.1 p hp)
      rw [hvi] at hok
      exact Except.noConfusion hok
  | ok u =>
    cases u
    simp only [hvi]
    have hall : g.metadata.all
        (fun p => decide (metaLookup stored p.1 = some p.2)) = true := by
      rw [List.all_eq_true]
      intro p hp
      exact decide_eq_true ((validate_items_ok_iff _ _).1 hvi p hp)
    by_cases hks : keySetEq (stored.map Prod.fst)
        (g.metadata.map Prod.fst) = true
    · rw [if_pos hks]
      simp [hall, hks]
    · rw [if_neg hks]
      constructor
      · intro h
        exact Except.noConfusion h
      · intro h
        rw [Bool.and_eq_true] at h
        exact absurd h.2 hks

/-- Every error `validate_db` raises reports a real difference, of the
kind its constructor indicates. -/
theorem validate_db_error_sound (g : Fragment_Group)
    (stored : List (String × String)) (e : Open_Error)
    (h : g.validate_db stored = .error e) :
    Open_Error.errSound stored g.metadata e := by
  unfold Fragment_Group.validate_db at h
  cases hvi : validate_items g.metadata stored with
  | error e2 =>
    simp only [hvi] at h
    injection h with h2
    subst h2
    rcases validate_items_error_kinds _ _ _ hvi with ⟨k, v, fnd, rfl⟩ | ⟨k, rfl⟩
    · exact validate_items_mismatch _ _ _ _ _ hvi
    · exact validate_items_keyErr _ _ _ hvi
  | ok u =>
    cases u
    simp only [hvi] at h
    by_cases hks : keySetEq (stored.map Prod.fst)
        (g.metadata.map Prod.fst) = true
    · rw [if_pos hks] at h
      exact Except.noConfusion h
    · rw [if_neg hks] at h
      injection h with h2
      subst h2
      cases hb : keySetEq (stored.map Prod.fst) (g.metadata.map Prod.fst) with
      | true => exact absurd hb hks
      | false => exact hb

/-- The expected metadata matches itself. -/
theorem metaMatches_self (g : Fragment_Group) :
    metaMatches g g.metadata = true := by
  unfold metaMatches
  rw [Bool.and_eq_true]
  constructor
  · rw [List.all_eq_true]
    intro p hp
    apply decide_eq_true
    simp only [Fragment_Group.metadata, List.mem_cons, List.not_mem_nil,
      or_false] at hp
    rcases hp with rfl | rfl | rfl | rfl | rfl
    · rfl
    · rfl
    · rfl
    · rfl
    · rfl
  · have hrefl : ∀ l : List String, keySetEq l l = true := by
      intro l
      unfold keySetEq
      rw [Bool.and_eq_true]
      constructor <;> (rw [List.all_eq_true]; intro x hx; simpa using hx)
    exact hrefl _

/-- C3 (amended): on an existing bucket, `open` leaves the store
unchanged (initialization is skipped), succeeds exactly when the stored
metadata matches the expected configuration value-for-value and
key-set-for-key-set, and otherwise surfaces `validate_db`'s error before
any data operation; the error is the configuration-mismatch `ValueError`
(`mismatch`/`keySetsDiffer`) for a differing value at a stored key or for
extra stored keys, but a `KeyError` — not a configuration-mismatch
error — when an expected key is missing from the stored metadata; when
the stored metadata equals the expected record, open succeeds
idempotently (for any writeable flag), returning the store, hence
identical metadata. -/
theorem C3_open_existing (g : Fragment_Group) (w w2 : Bool) (st : DBState)
    (stored : List (String × String)) (e : Open_Error)
    (hmeta : st.metaTable = some stored) :
    (g.initialize_db w st = st) ∧
    (g.open_ w st = .ok st ↔ g.validate_db stored = .ok ()) ∧
    (g.validate_db stored = .ok () ↔ metaMatches g stored = true) ∧
    (g.validate_db stored = .error e → g.open_ w st = .error e) ∧
    (g.validate_db stored = .error e →
      Open_Error.errSound stored g.metadata e) ∧
    (stored = g.metadata → g.open_ w2 st = .ok st) := by
  have hinit : ∀ wx : Bool, g.initialize_db wx st = st := by
    intro wx
    cases wx <;> simp [Fragment_Group.initialize_db, hmeta]
  refine ⟨hinit w, ?_, validate_db_ok_iff g stored,
    ?_, fun he => validate_db_error_sound g stored e he, ?_⟩
  · unfold Fragment_Group.open_
    rw [hinit w, hmeta]
    dsimp only
    cases hv : g.validate_db stored with
    | error e2 =>
      dsimp only
      constructor <;> intro h <;> exact Except.noConfusion h
    | ok u =>
      cases u
      dsimp only
      constructor <;> intro _ <;> rfl
  · intro he
    unfold Fragment_Group.open_
    rw [hinit w, hmeta]
    dsimp only
    rw [he]
  · intro hstored
    have hok : g.validate_db stored = .ok () := by
      rw [validate_db_ok_iff, hstored]
      exact metaMatches_self g
    unfold Fragment_Group.open_
    rw [hinit w2, hmeta]
    dsimp only
    rw [hok]

/-- Stored metadata agreeing with the January 2015 bucket except that
`hashmod` reads "5". -/
def storedWrongHashmod : List (String × String) :=
  [("fragment_total_zmax", "2"), ("hash", "fnv1a_32"), ("hashmod", "5"),
   ("length", "744"), ("schema_version", "1")]

/-- An existing bucket carrying `storedWrongHashmod`. -/
def stWrongHashmod : DBState :=
  { metaTable := some storedWrongHashmod, dataTables := List.replicate 4 [] }

/-- Stored metadata for the January 2015 bucket with the `hash` key
missing (all present keys carry their expected values). -/
def storedMissingHash : List (String × String) :=
  [("fragment_total_zmax", "2"), ("hashmod", "4"), ("length", "744"),
   ("schema_version", "1")]

/-- An existing bucket carrying `storedMissingHash`. -/
def stMissingHash : DBState :=
  { metaTable := some storedMissingHash, dataTables := List.replicate 4 [] }

/-- Witness for C3: the January 2015 bucket.  Opening the
just-initialized store again succeeds idempotently (read-only and
writeable), and opening against stored metadata whose `hashmod` value is
"5" instead of "4" surfaces the configuration-mismatch error before any
data operation. -/
theorem C3_open_existing_witness :
    stJan.metaTable = some gJan.metadata ∧
    gJan.initialize_db true stJan = stJan ∧
    gJan.open_ false stJan = .ok stJan ∧
    gJan.open_ true stJan = .ok stJan ∧
    stWrongHashmod.metaTable = some storedWrongHashmod ∧
    gJan.validate_db storedWrongHashmod
      = .error (.mismatch "hashmod" "4" "5") ∧
    gJan.open_ true stWrongHashmod
      = .error (.mismatch "hashmod" "4" "5") ∧
    Open_Error.errSound storedWrongHashmod gJan.metadata
      (.mismatch "hashmod" "4" "5") :=
  have hm : stJan.metaTable = some gJan.metadata := rfl
  have hm2 : stWrongHashmod.metaTable = some storedWrongHashmod := rfl
  have hv : gJan.validate_db storedWrongHashmod
      = .error (.mismatch "hashmod" "4" "5") := by decide
  have hC1 := C3_open_existing gJan true false stJan gJan.metadata
    (.keyErr "z") hm
  have hC2 := C3_open_existing gJan true true stJan gJan.metadata
    (.keyErr "z") hm
  have hC3 := C3_open_existing gJan true true stWrongHashmod
    storedWrongHashmod (.mismatch "hashmod" "4" "5") hm2
  ⟨hm, hC2.1, hC1.2.2.2.2.2 rfl, hC2.2.2.2.2.2 rfl, hm2, hv,
    hC3.2.2.2.1 hv, hC3.2.2.2.2.1 hv⟩

/-- Counterexample to C3 as stated: stored metadata that differs from the
expected configuration in the set of keys present (the `hash` key is
missing) makes `open` raise a Python `KeyError` from `db_meta[k]` — not
the configuration-mismatch `ValueError` the claim promises (the key-set
branch of `validate_db` is unreachable for missing keys because the
value loop indexes `db_meta[k]` first). -/
theorem C3_counterexample :
    stMissingHash.metaTable = some storedMissingHash ∧
    keySetEq (storedMissingHash.map Prod.fst)
      (gJan.metadata.map Prod.fst) = false ∧
    gJan.open_ true stMissingHash = .error (.keyErr "hash") ∧
    (Open_Error.keyErr "hash").isMismatch = false := by
  refine ⟨rfl, by decide, by decide, rfl⟩

/-- The unmutated scenario fragment `("aboth", "abov11")`, all zeros,
source `NEW`. -/
def fragB : Fragment := gJan.create "aboth" "abov11" TYPE_DEFAULT

/-- The row `save` writes for `fragB` carries its identity. -/
theorem fragB_key :
    (Row.ofFragment fragB.total_update).keyIs fragB.nspace fragB.name
      = true := by decide

/-- After the first save, the shard table holds exactly `fragB`'s row. -/
theorem fragB_table1 :
    (fragB.save stJan).2.dataTables.getD fragB.shard []
      = [Row.ofFragment fragB.total_update] := by
  rw [save_eq]
  show (stJan.dataTables.set fragB.shard
    (savedTable fragB stJan)).getD fragB.shard [] = _
  rw [getD_set_self _ _ _ _ (by decide), savedTable_new fragB stJan rfl]
  rfl

/-- The shard index remains in range after the first save. -/
theorem fragB_len2 :
    fragB.shard < (fragB.save stJan).2.dataTables.length := by
  rw [save_eq]
  show fragB.shard < (stJan.dataTables.set fragB.shard
    (savedTable fragB stJan)).length
  rw [List.length_set]
  decide

/-- After saving `fragB` a second time, its shard table holds its row
twice. -/
theorem fragB_table2 :
    (fragB.save (fragB.save stJan).2).2.dataTables.getD fragB.shard []
      = [Row.ofFragment fragB.total_update,
         Row.ofFragment fragB.total_update] := by
  rw [save_eq fragB (fragB.save stJan).2]
  show ((fragB.save stJan).2.dataTables.set fragB.shard
    (savedTable fragB (fragB.save stJan).2)).getD fragB.shard [] = _
  rw [getD_set_self _ _ _ _ fragB_len2,
    savedTable_new fragB (fragB.save stJan).2 rfl, fragB_table1]
  rfl

/-- C8 (amended): the shard tables are created without any uniqueness
constraint on `(namespace, name)` (the `CREATE TABLE data%d` schema at
timeseries.py lines 199-204 declares no key), so saving a `NEW` fragment
whose identity already exists in its shard table does not raise a
constraint violation: the insert succeeds unconditionally and the table
gains exactly one more row carrying that identity — a silent duplicate. -/
theorem C8_duplicate_insert (f : Fragment) (st : DBState)
    (hnew : f.source = .NEW) (hlen : f.shard < st.dataTables.length) :
    (((f.save st).2.dataTables.getD f.shard []).filter
      (fun r => r.keyIs f.nspace f.name)).length =
    ((st.dataTables.getD f.shard []).filter
      (fun r => r.keyIs f.nspace f.name)).length + 1 := by
  rw [save_eq]
  show (((st.dataTables.set f.shard (savedTable f st)).getD f.shard
    []).filter (fun r => r.keyIs f.nspace f.name)).length = _
  rw [getD_set_self _ _ _ _ hlen, savedTable_new f st hnew,
    List.filter_append, List.length_append]
  have hk : (Row.ofFragment f.total_update).keyIs f.nspace f.name
      = true := by
    simp [Row.keyIs, Row.ofFragment, Fragment.total_update]
  rw [List.filter_cons, if_pos hk]
  rfl

/-- Witness for C8's amended statement: saving `fragB` into a store
where its identity already exists (after a first save) succeeds and
raises the number of rows with that identity from 1 to 2. -/
theorem C8_duplicate_insert_witness :
    fragB.source = .NEW ∧
    fragB.shard < (fragB.save stJan).2.dataTables.length ∧
    (((fragB.save (fragB.save stJan).2).2.dataTables.getD fragB.shard
      []).filter (fun r => r.keyIs fragB.nspace fragB.name)).length =
    (((fragB.save stJan).2.dataTables.getD fragB.shard []).filter
      (fun r => r.keyIs fragB.nspace fragB.name)).length + 1 :=
  ⟨rfl, fragB_len2,
    C8_duplicate_insert fragB (fragB.save stJan).2 rfl fragB_len2⟩

/-- Counterexample to C8 as stated: after saving the `NEW` fragment
`("aboth", "abov11")` once, its identity exists in its shard table (one
matching row); saving it again does not raise any store-level constraint
violation — `save` completes and the table now holds two rows with that
identity, a silently produced duplicate. -/
theorem C8_counterexample :
    fragB.source = .NEW ∧
    (((fragB.save stJan).2.dataTables.getD fragB.shard []).filter
      (fun r => r.keyIs fragB.nspace fragB.name)).length = 1 ∧
    (((fragB.save (fragB.save stJan).2).2.dataTables.getD fragB.shard
      []).filter (fun r => r.keyIs fragB.nspace fragB.name)).length = 2 := by
  refine ⟨rfl, ?_, ?_⟩
  · rw [fragB_table1, List.filter_cons, if_pos fragB_key]
    rfl
  · rw [fragB_table2, List.filter_cons, if_pos fragB_key,
      List.filter_cons, if_pos fragB_key]
    rfl

/-- C9: `total` is not kept consistent with in-place mutation of `data`
between saves.  Mutating an element leaves `total` unchanged; a freshly
created fragment has total 0 (whatever is mutated later, until save);
`save` recomputes `total` as the sum of the data, and `fetch` sets it
from the stored aggregate of the found row; and whenever `total` agrees
with the sum, mutating an in-range element to a genuinely different
value breaks the agreement. -/
theorem C9_total_stale (f fr : Fragment) (st st2 : DBState) (i : Nat)
    (v : Int) (g : Fragment_Group) (ns nm dt : String) :
    ((f.setData i v).total = f.total) ∧
    ((g.create ns nm dt).total = 0) ∧
    ((f.save st).1.total = f.data.sum) ∧
    (g.fetch st2 ns nm = .ok fr →
      ((st2.tableFor g ns nm).find? (fun r => r.keyIs ns nm)).map Row.total
        = some fr.total) ∧
    (i < f.data.length → f.data.getD i 0 ≠ v → f.total = f.data.sum →
      (f.setData i v).total ≠ (f.setData i v).data.sum) := by
  refine ⟨rfl, rfl, rfl, ?_, ?_⟩
  · intro hok
    unfold Fragment_Group.fetch at hok
    cases hf : (st2.tableFor g ns nm).find? (fun r => r.keyIs ns nm) with
    | none =>
      simp only [hf] at hok
      exact Except.noConfusion hok
    | some r =>
      simp only [hf] at hok
      injection hok with h2
      subst h2
      rfl
  · intro hi hne htot heq
    have hsum : (f.setData i v).data.sum
        = f.data.sum - f.data.getD i 0 + v := sum_set_int f.data i v hi
    rw [show (f.setData i v).total = f.total from rfl, htot, hsum] at heq
    apply hne
    omega

/-- Witness for C9: the all-zero `("aboth", "abov11")` fragment.  Created
with total 0; setting index 0 to 1 leaves total at 0 while the sum
becomes 1, so total no longer equals the sum; saving recomputes the
total; and the fetch of the stored all-zero series takes its total from
the stored aggregate. -/
theorem C9_total_stale_witness :
    ((fragB.setData 0 1).total = fragB.total) ∧
    ((gJan.create "aboth" "zeros" TYPE_DEFAULT).total = 0) ∧
    ((fragB.save stJan).1.total = fragB.data.sum) ∧
    (gJan.fetch stZ "aboth" "zeros" = .ok frZ) ∧
    (((stZ.tableFor gJan "aboth" "zeros").find?
        (fun r => r.keyIs "aboth" "zeros")).map Row.total
      = some frZ.total) ∧
    (0 < fragB.data.length) ∧
    (fragB.data.getD 0 0 ≠ 1) ∧
    (fragB.total = fragB.data.sum) ∧
    ((fragB.setData 0 1).total ≠ (fragB.setData 0 1).data.sum) :=
  have hfetch : gJan.fetch stZ "aboth" "zeros" = .ok frZ := rfl
  have hlen0 : 0 < fragB.data.length := by
    rw [show fragB.data = List.replicate gJan.length (0 : Int) from rfl,
      List.length_replicate]
    decide
  have hgd : fragB.data.getD 0 0 ≠ 1 := by
    rw [show fragB.data = List.replicate gJan.length (0 : Int) from rfl,
      getD_replicate_of_lt _ _ _ _ (by decide)]
    decide
  have htot : fragB.total = fragB.data.sum := by
    rw [show fragB.total = (0 : Int) from rfl,
      show fragB.data = List.replicate gJan.length (0 : Int) from rfl,
      sum_replicate_zero]
  have hC := C9_total_stale fragB frZ stJan stZ 0 1 gJan "aboth" "zeros"
    TYPE_DEFAULT
  ⟨hC.1, hC.2.1, hC.2.2.1, hfetch, hC.2.2.2.1 hfetch, hlen0, hgd, htot,
    hC.2.2.2.2 hlen0 hgd htot⟩

/-- C10: `save` mutates only the fragment's `total`: namespace, name,
data, dtype tag, group and in particular `source` are unchanged — so a
fragment constructed with source `NEW` that is saved twice takes the
insert branch both times, appending two rows with the same
`(namespace, name)` to the same shard table. -/
theorem C10_save_frame (f : Fragment) (st : DBState) :
    ((f.save st).1.nspace = f.nspace) ∧
    ((f.save st).1.name = f.name) ∧
    ((f.save st).1.data = f.data) ∧
    ((f.save st).1.source = f.source) ∧
    ((f.save st).1.dtype = f.dtype) ∧
    ((f.save st).1.group = f.group) ∧
    ((Row.ofFragment (f.save st).1).nspace = f.nspace ∧
      (Row.ofFragment (f.save st).1).name = f.name) ∧
    (f.source = .NEW → f.shard < st.dataTables.length →
      ((f.save st).1.save (f.save st).2).2.dataTables.getD f.shard [] =
        st.dataTables.getD f.shard []
          ++ [Row.ofFragment f.total_update,
              Row.ofFragment f.total_update]) := by
  refine ⟨rfl, rfl, rfl, rfl, rfl, rfl, ⟨rfl, rfl⟩, ?_⟩
  intro hnew hlen
  rw [save_eq f st]
  dsimp only
  rw [save_eq f.total_update]
  dsimp only
  have hsh : (f.total_update).shard = f.shard := rfl
  rw [hsh]
  have hlen2 : f.shard
      < (st.dataTables.set f.shard (savedTable f st)).length := by
    rw [List.length_set]
    exact hlen
  rw [getD_set_self _ _ _ _ hlen2]
  have hnew2 : (f.total_update).source = .NEW := hnew
  rw [savedTable_new f.total_update _ hnew2, hsh,
    getD_set_self _ _ _ _ hlen, savedTable_new f st hnew,
    List.append_assoc]
  rfl

/-- Witness for C10: saving the `NEW` all-zero `("aboth", "abov11")`
fragment leaves its identity, data and source untouched (still `NEW`),
and saving the returned fragment again appends a second identical row
for the same identity to the same shard table. -/
theorem C10_save_frame_witness :
    ((fragB.save stJan).1.nspace = fragB.nspace) ∧
    ((fragB.save stJan).1.data = fragB.data) ∧
    ((fragB.save stJan).1.source = fragB.source) ∧
    fragB.source = .NEW ∧
    fragB.shard < stJan.dataTables.length ∧
    (((fragB.save stJan).1.save (fragB.save stJan).2).2.dataTables.getD
        fragB.shard [] =
      stJan.dataTables.getD fragB.shard []
        ++ [Row.ofFragment fragB.total_update,
            Row.ofFragment fragB.total_update]) :=
  have hC := C10_save_frame fragB stJan
  ⟨hC.1, hC.2.2.1, hC.2.2.2.1, rfl, by decide,
    hC.2.2.2.2.2.2.2 rfl (by decide)⟩

end Timeseries
